import Mathlib

/-!
# Verification of the ping-monitor repository (`main.go`)

A shallow embedding of the core of `main.go`: the status-tracking and
change-detection loop (`monitorDevices`), the reachability prober
(`icmpPing`), the notifier (`sendTelegramMessage`) and the startup path
(`main`).  External effects (the network, the filesystem, the process
environment) are modelled by explicit environment records passed to the
embedded functions; everything the Go code computes from those effects is
translated directly.
-/

set_option autoImplicit false

namespace PingMonitor

/-- Structure Device from `main.go` (lines 18-21): a description and an IP. -/
structure Device where
  description : String
  ip : String
  deriving DecidableEq, Repr

/-- Structure Config from `main.go` (lines 24-26): the list of devices parsed
from `devices.yaml`. -/
structure Config where
  devices : List Device
  deriving DecidableEq, Repr

/-- Structure TelegramMessage from `main.go` (lines 29-32). -/
structure TelegramMessage where
  chatID : String
  text : String
  deriving DecidableEq, Repr

/-- The Go map `statuses : map[string]string` of `monitorDevices`
(line 96), embedded as an association list from device IP to the
last-observed status string (`"online"` / `"offline"`).  The map starts
empty, and insertion replaces an existing binding, so the keys stay
distinct exactly as in a Go map. -/
abbrev StatusMap := List (String × String)

/-- Go map lookup `statuses[device.IP]` (line 121): `none` models
`exists == false`. -/
def StatusMap.find : StatusMap → String → Option String
  | [], _ => none
  | (k, v) :: rest, key => if k = key then some v else StatusMap.find rest key

/-- Go map assignment `statuses[device.IP] = status` (line 124):
replaces the binding for the key if present, otherwise appends it. -/
def StatusMap.insert : StatusMap → String → String → StatusMap
  | [], key, val => [(key, val)]
  | (k, v) :: rest, key, val =>
      if k = key then (key, val) :: rest
      else (k, v) :: StatusMap.insert rest key val

/-- The keys of the map are pairwise distinct — automatically true for a
Go map, and preserved by `StatusMap.insert` starting from the empty map. -/
def StatusMap.nodupKeys (m : StatusMap) : Prop := (m.map Prod.fst).Nodup

instance (m : StatusMap) : Decidable m.nodupKeys := by
  unfold StatusMap.nodupKeys; infer_instance

@[simp] theorem StatusMap.find_nil (key : String) :
    StatusMap.find [] key = none := rfl

@[simp] theorem StatusMap.find_cons (k v : String) (rest : StatusMap) (key : String) :
    StatusMap.find ((k, v) :: rest) key
      = if k = key then some v else StatusMap.find rest key := rfl

theorem StatusMap.find_insert_self (m : StatusMap) (key val : String) :
    (m.insert key val).find key = some val := by
  induction m with
  | nil => simp [StatusMap.insert]
  | cons hd tl ih =>
      obtain ⟨k, v⟩ := hd
      by_cases hk : k = key <;> simp [StatusMap.insert, hk, ih]

theorem StatusMap.find_insert_ne (m : StatusMap) (key val k' : String)
    (h : k' ≠ key) : (m.insert key val).find k' = m.find k' := by
  induction m with
  | nil => simp [StatusMap.insert, Ne.symm h]
  | cons hd tl ih =>
      obtain ⟨k, v⟩ := hd
      by_cases hk : k = key
      · subst hk
        simp [StatusMap.insert, Ne.symm h]
      · simp only [StatusMap.insert, if_neg hk, StatusMap.find_cons, ih]

theorem StatusMap.keys_insert_of_mem (m : StatusMap) (key val : String)
    (h : key ∈ m.map Prod.fst) :
    (m.insert key val).map Prod.fst = m.map Prod.fst := by
  induction m with
  | nil => simp at h
  | cons hd tl ih =>
      obtain ⟨k, v⟩ := hd
      by_cases hk : k = key
      · subst hk; simp [StatusMap.insert]
      · simp only [List.map_cons, List.mem_cons] at h
        rcases h with h | h
        · exact absurd h.symm hk
        · simp [StatusMap.insert, hk, ih h]

theorem StatusMap.keys_insert_of_not_mem (m : StatusMap) (key val : String)
    (h : key ∉ m.map Prod.fst) :
    (m.insert key val).map Prod.fst = m.map Prod.fst ++ [key] := by
  induction m with
  | nil => simp [StatusMap.insert]
  | cons hd tl ih =>
      obtain ⟨k, v⟩ := hd
      simp only [List.map_cons, List.mem_cons] at h
      push_neg at h
      simp [StatusMap.insert, Ne.symm h.1, ih h.2]

theorem StatusMap.nodupKeys_insert (m : StatusMap) (key val : String)
    (h : m.nodupKeys) : (m.insert key val).nodupKeys := by
  unfold StatusMap.nodupKeys at h ⊢
  by_cases hmem : key ∈ m.map Prod.fst
  · rwa [StatusMap.keys_insert_of_mem m key val hmem]
  · rw [StatusMap.keys_insert_of_not_mem m key val hmem]
    simp [List.nodup_append, List.disjoint_singleton, h, hmem]

theorem StatusMap.find_eq_none_of_not_mem (m : StatusMap) (key : String)
    (h : key ∉ m.map Prod.fst) : m.find key = none := by
  induction m with
  | nil => rfl
  | cons hd tl ih =>
      obtain ⟨k, v⟩ := hd
      simp only [List.map_cons, List.mem_cons] at h
      push_neg at h
      simp [StatusMap.find_cons, Ne.symm h.1, ih h.2]

theorem StatusMap.find_isSome_of_mem (m : StatusMap) (key : String)
    (h : key ∈ m.map Prod.fst) : (m.find key).isSome := by
  induction m with
  | nil => simp at h
  | cons hd tl ih =>
      obtain ⟨k, v⟩ := hd
      by_cases hk : k = key
      · simp [StatusMap.find_cons, hk]
      · simp only [List.map_cons, List.mem_cons] at h
        rcases h with h | h
        · exact absurd h.symm hk
        · simp [StatusMap.find_cons, hk, ih h]

/-- The status string computed in `monitorDevices` (lines 110-116):
`"offline"` unless the ping reported the device online. -/
def statusOf (isOnline : Bool) : String :=
  if isOnline then "online" else "offline"

/-- The status marker computed alongside it (lines 111-115). -/
def statusEmojiOf (isOnline : Bool) : String :=
  if isOnline then "🟢  " else "🔴  "

/-- The line appended to the Telegram message builder for a changed
device (line 123):
`fmt.Sprintf("%s Description: %s, IP: %s is %s\n", statusEmoji, device.Description, device.IP, status)`. -/
def changeLine (d : Device) (isOnline : Bool) : String :=
  statusEmojiOf isOnline ++ " Description: " ++ d.description ++ ", IP: "
    ++ d.ip ++ " is " ++ statusOf isOnline ++ "\n"

/-- Result of one status-tracker update: whether the state counted as
changed, and the map afterwards. -/
structure UpdateResult where
  changed : Bool
  statuses : StatusMap
  deriving DecidableEq, Repr

/-- The Status Tracker step of `monitorDevices` (lines 121-126):
`if previousStatus, exists := statuses[device.IP]; !exists || previousStatus != status`
— a missing entry or a differing stored status counts as changed, and
the new status is written to the map only in the changed branch. -/
def statusTrackerUpdate (m : StatusMap) (ip status : String) : UpdateResult :=
  match m.find ip with
  | none => ⟨true, m.insert ip status⟩
  | some prev =>
      if prev ≠ status then ⟨true, m.insert ip status⟩ else ⟨false, m⟩

theorem statusTrackerUpdate_find_self (m : StatusMap) (ip status : String) :
    (statusTrackerUpdate m ip status).statuses.find ip = some status := by
  unfold statusTrackerUpdate
  cases hfind : m.find ip with
  | none => simpa using StatusMap.find_insert_self m ip status
  | some prev =>
      by_cases hne : prev ≠ status
      · simpa [hne] using StatusMap.find_insert_self m ip status
      · push_neg at hne
        simpa [hne] using hfind

/-! ## Reachability prober: `icmpPing` (lines 49-66) -/

/-- The external outcomes `icmpPing` reacts to: whether
`ping.NewPinger(ip)` returned an error, whether `pinger.Run()` returned
an error, and `pinger.Statistics().PacketsRecv`. -/
structure PingEnv where
  newPingerErr : Option String
  runErr : Option String
  packetsRecv : Nat
  deriving DecidableEq, Repr

/-- Mirrors `pinger.Count = 3` (line 55): the number of probe attempts issued. -/
def pingerCount : Nat := 3

/-- Mirrors `pinger.Timeout = 5 * time.Second` (line 56), in seconds. -/
def pingerTimeoutSeconds : Nat := 5

/-- Function `icmpPing` (lines 49-66): returns `false` when the pinger cannot be
constructed, `false` when the run fails, and otherwise
`stats.PacketsRecv > 0`. -/
def icmpPing (env : PingEnv) : Bool :=
  match env.newPingerErr with
  | some _ => false
  | none =>
      match env.runErr with
      | some _ => false
      | none => decide (0 < env.packetsRecv)

/-! ## Notifier: `sendTelegramMessage` (lines 69-92) -/

/-- The external outcomes `sendTelegramMessage` reacts to: the result of
`json.Marshal` (for this payload — a struct of two strings — Go's
marshaller in fact never fails, but the code checks the error, so the
branch is modelled), the result of `http.Post`, and the response status
code when the POST succeeds. -/
structure SendEnv where
  marshalErr : Option String
  postErr : Option String
  statusCode : Nat
  deriving DecidableEq, Repr

/-- Function `sendTelegramMessage` (lines 69-92): builds the URL and payload,
returns an error on marshal failure, transport failure, or a non-200
response status, and `ok` otherwise. -/
def sendTelegramMessage (env : SendEnv) (botToken chatID message : String) :
    Except String Unit :=
  let _url := "https://api.telegram.org/bot" ++ botToken ++ "/sendMessage"
  let _msg : TelegramMessage := ⟨chatID, message⟩
  match env.marshalErr with
  | some e => .error ("could not encode message to JSON: " ++ e)
  | none =>
      match env.postErr with
      | some e => .error ("could not send message to Telegram: " ++ e)
      | none =>
          if env.statusCode ≠ 200 then
            .error ("unexpected status code: " ++ toString env.statusCode)
          else .ok ()

/-! ## Monitor loop: `monitorDevices` (lines 95-142)

One cycle iterates over the configured devices; `icmpPing` is called
once per device per cycle, so a cycle's probe outcomes are a list of
`Device × Bool` pairs (the device in source order, paired with that
call's result). -/

/-- The per-cycle mutable state of the inner loop of `monitorDevices`:
the `statuses` map, the contents of `messageBuilder`, and the
`messageChanged` flag (lines 96-127). -/
structure CycleState where
  statuses : StatusMap
  message : String
  messageChanged : Bool
  deriving DecidableEq, Repr

/-- One iteration of the inner device loop (lines 108-127): ping result
`isOnline`, derived `status`, and — when the tracker reports a change —
append the change line, commit the status, and set `messageChanged`. -/
def processDevice (st : CycleState) (obs : Device × Bool) : CycleState :=
  let status := statusOf obs.2
  let r := statusTrackerUpdate st.statuses obs.1.ip status
  if r.changed then
    { statuses := r.statuses
      message := st.message ++ changeLine obs.1 obs.2
      messageChanged := true }
  else
    { statuses := r.statuses
      message := st.message
      messageChanged := st.messageChanged }

/-- Specification view of the statuses map after the inner loop: fold
the tracker over the cycle's observations. -/
def trackAll (m : StatusMap) : List (Device × Bool) → StatusMap
  | [] => m
  | (d, b) :: rest => trackAll (statusTrackerUpdate m d.ip (statusOf b)).statuses rest

/-- Specification view of the change lines accumulated during the inner
loop: one `changeLine` per observation whose tracker update reported a
change, in source (iteration) order. -/
def changedLines (m : StatusMap) : List (Device × Bool) → List String
  | [] => []
  | (d, b) :: rest =>
      let r := statusTrackerUpdate m d.ip (statusOf b)
      if r.changed then changeLine d b :: changedLines r.statuses rest
      else changedLines r.statuses rest

/-- Concatenation of a list of lines, as `strings.Builder` accumulates
them. -/
def concatLines : List String → String
  | [] => ""
  | l :: rest => l ++ concatLines rest

/-- The observable outcome of one cycle of `monitorDevices`: the
statuses map carried to the next cycle, the messages handed to
`sendTelegramMessage` during the cycle, and the delivery error printed
at line 134 if the send failed. -/
structure CycleResult where
  statuses : StatusMap
  sentMessages : List String
  sendErrorLog : Option String
  deriving DecidableEq, Repr

/-- One full cycle of the `for` loop of `monitorDevices` (lines
98-141): run the inner device loop, then send the accumulated message
iff `messageChanged || len(statuses) == 0` (line 130), logging — not
propagating — any delivery error (lines 132-135). -/
def runCycle (env : SendEnv) (botToken chatID : String) (statuses : StatusMap)
    (observations : List (Device × Bool)) : CycleResult :=
  let st := observations.foldl processDevice
    { statuses := statuses, message := "", messageChanged := false }
  if st.messageChanged || st.statuses.length == 0 then
    let sent := sendTelegramMessage env botToken chatID st.message
    { statuses := st.statuses
      sentMessages := [st.message]
      sendErrorLog := match sent with | .error e => some e | .ok _ => none }
  else
    { statuses := st.statuses, sentMessages := [], sendErrorLog := none }

/-- A run of `monitorDevices` over finitely many cycles: each cycle is
given its send environment and its list of per-device probe outcomes.
Returns the final statuses map and every cycle's result. -/
def runCycles (botToken chatID : String) (statuses : StatusMap) :
    List (SendEnv × List (Device × Bool)) → StatusMap × List CycleResult
  | [] => (statuses, [])
  | (env, obs) :: rest =>
      let r := runCycle env botToken chatID statuses obs
      let p := runCycles botToken chatID r.statuses rest
      (p.1, r :: p.2)

/-! ## Startup: `main` (lines 144-173) -/

/-- The external outcomes `main` reacts to: the result of
`godotenv.Load()`, the two environment variables (`os.Getenv` returns
`""` when unset), and the result of `readConfig("devices.yaml")`. -/
structure StartupEnv where
  dotenvErr : Option String
  botToken : String
  chatID : String
  configResult : Except String Config
  deriving Repr

/-- What `main` does: either the process exits — in Go, `return` from
`main` terminates the process with exit status 0 — with a diagnostic
printed first, or it enters `monitorDevices`, which loops forever. -/
inductive MainOutcome where
  | exitWith (code : Nat) (diagnostic : Option String)
  | runForever (devices : List Device) (botToken chatID : String)
  deriving DecidableEq, Repr

/-- Function `main` (lines 144-173): every failure path prints a diagnostic and
then executes a plain `return`, which makes the Go process exit with
status 0; the success path calls `monitorDevices`, which never
returns. -/
def mainGo (env : StartupEnv) : MainOutcome :=
  match env.dotenvErr with
  | some e => .exitWith 0 (some ("Error loading .env file: " ++ e))
  | none =>
      if env.botToken = "" || env.chatID = "" then
        .exitWith 0
          (some "Telegram bot token or chat ID is missing in the environment variables")
      else
        match env.configResult with
        | .error e => .exitWith 0 (some ("Error reading config: " ++ e))
        | .ok cfg => .runForever cfg.devices env.botToken env.chatID

/-! ## Characterization of the inner device loop -/

theorem statusTrackerUpdate_not_changed (m : StatusMap) (ip status : String)
    (h : (statusTrackerUpdate m ip status).changed = false) :
    m.find ip = some status ∧ (statusTrackerUpdate m ip status).statuses = m := by
  unfold statusTrackerUpdate at h ⊢
  cases hfind : m.find ip with
  | none => simp [hfind] at h
  | some prev =>
      by_cases hne : prev ≠ status
      · simp [hfind, hne] at h
      · push_neg at hne
        subst hne
        simp [hfind]

theorem foldl_processDevice (obs : List (Device × Bool)) :
    ∀ (m : StatusMap) (msg : String) (flag : Bool),
    obs.foldl processDevice ⟨m, msg, flag⟩ =
      ⟨trackAll m obs, msg ++ concatLines (changedLines m obs),
        flag || !(changedLines m obs).isEmpty⟩ := by
  induction obs with
  | nil =>
      intro m msg flag
      simp [trackAll, changedLines, concatLines]
  | cons hd tl ih =>
      obtain ⟨d, b⟩ := hd
      intro m msg flag
      by_cases hch : (statusTrackerUpdate m d.ip (statusOf b)).changed
      · simp only [List.foldl_cons, processDevice, hch, if_true]
        rw [ih]
        simp [trackAll, changedLines, concatLines, hch, String.append_assoc]
      · simp only [List.foldl_cons, processDevice]
        rw [if_neg hch, ih]
        simp only [Bool.not_eq_true] at hch
        simp [trackAll, changedLines, hch]

theorem statusTrackerUpdate_of_find_eq (m : StatusMap) (ip s : String)
    (h : m.find ip = some s) :
    statusTrackerUpdate m ip s = ⟨false, m⟩ := by
  unfold statusTrackerUpdate
  simp [h]

theorem statusTrackerUpdate_find_ne (m : StatusMap) (ip s k : String)
    (hk : k ≠ ip) :
    (statusTrackerUpdate m ip s).statuses.find k = m.find k := by
  unfold statusTrackerUpdate
  cases hfind : m.find ip with
  | none => simpa using StatusMap.find_insert_ne m ip s k hk
  | some prev =>
      by_cases hne : prev ≠ s
      · simpa [hne] using StatusMap.find_insert_ne m ip s k hk
      · simp [hne]

theorem statusTrackerUpdate_nodupKeys (m : StatusMap) (ip s : String)
    (h : m.nodupKeys) :
    (statusTrackerUpdate m ip s).statuses.nodupKeys := by
  unfold statusTrackerUpdate
  cases hfind : m.find ip with
  | none => simpa using StatusMap.nodupKeys_insert m ip s h
  | some prev =>
      by_cases hne : prev ≠ s
      · simpa [hne] using StatusMap.nodupKeys_insert m ip s h
      · simpa [hne] using h

theorem changedLines_length_of_fresh (obs : List (Device × Bool)) :
    ∀ m : StatusMap, (obs.map (fun o => o.1.ip)).Nodup →
      (∀ o ∈ obs, m.find o.1.ip = none) →
      (changedLines m obs).length = obs.length := by
  induction obs with
  | nil => intro m _ _; simp [changedLines]
  | cons hd tl ih =>
      obtain ⟨d, b⟩ := hd
      intro m hnodup hfresh
      have hnone : m.find d.ip = none := hfresh (d, b) (by simp)
      have hch : (statusTrackerUpdate m d.ip (statusOf b)).changed = true := by
        simp [statusTrackerUpdate, hnone]
      have hst : (statusTrackerUpdate m d.ip (statusOf b)).statuses
          = m.insert d.ip (statusOf b) := by
        simp [statusTrackerUpdate, hnone]
      simp only [List.map_cons, List.nodup_cons] at hnodup
      have htl : (changedLines (m.insert d.ip (statusOf b)) tl).length = tl.length := by
        refine ih (m.insert d.ip (statusOf b)) hnodup.2 ?_
        intro o ho
        rw [StatusMap.find_insert_ne]
        · exact hfresh o (by simp [ho])
        · exact fun he => hnodup.1 (List.mem_map.mpr ⟨o, ho, he⟩)
      simp [changedLines, hch, hst, htl]

theorem runCycle_eq (env : SendEnv) (botToken chatID : String) (m : StatusMap)
    (obs : List (Device × Bool)) :
    runCycle env botToken chatID m obs =
      if !(changedLines m obs).isEmpty || (trackAll m obs).length == 0 then
        { statuses := trackAll m obs
          sentMessages := [concatLines (changedLines m obs)]
          sendErrorLog :=
            match sendTelegramMessage env botToken chatID
                (concatLines (changedLines m obs)) with
            | .error e => some e
            | .ok _ => none }
      else
        { statuses := trackAll m obs, sentMessages := [], sendErrorLog := none } := by
  unfold runCycle
  rw [foldl_processDevice]
  simp [String.empty_append]

/-! ## The claims -/

/-- Claim C3: for a target with a previously stored state, the Status
Tracker update (lines 121-126) reports changed=true iff the newly
observed state differs from the stored state; consequently a repeated
identical observation immediately after an update reports
changed=false, so no further change line is produced for that target. -/
theorem statusTracker_changed_iff_differs (m : StatusMap) (ip prev s : String)
    (h : m.find ip = some prev) :
    ((statusTrackerUpdate m ip s).changed = true ↔ s ≠ prev) ∧
      (statusTrackerUpdate (statusTrackerUpdate m ip s).statuses ip s).changed
        = false := by
  constructor
  · by_cases hne : prev = s
    · subst hne
      simp [statusTrackerUpdate, h]
    · simp [statusTrackerUpdate, h, hne, Ne.symm hne]
  · have hfind := statusTrackerUpdate_find_self m ip s
    rw [statusTrackerUpdate_of_find_eq _ ip s hfind]

/-- Witness for C3 at a concrete input: a stored "online" state and an
observed "offline" state. -/
theorem statusTracker_changed_iff_differs_witness :
    ((statusTrackerUpdate [("10.0.0.1", "online")] "10.0.0.1" "offline").changed = true
        ↔ "offline" ≠ "online") ∧
      (statusTrackerUpdate
          (statusTrackerUpdate [("10.0.0.1", "online")] "10.0.0.1" "offline").statuses
          "10.0.0.1" "offline").changed = false :=
  statusTracker_changed_iff_differs [("10.0.0.1", "online")] "10.0.0.1" "online"
    "offline" (by decide)

/-- Claim C4: the first Status Tracker update for an address with no
prior entry reports changed=true whatever the observed state is, and on
the first cycle (empty map, distinct addresses) this happens exactly
once per target: the change-line list has one entry per target. -/
theorem statusTracker_first_update_changed :
    (∀ (m : StatusMap) (ip s : String), m.find ip = none →
        (statusTrackerUpdate m ip s).changed = true) ∧
      (∀ obs : List (Device × Bool), (obs.map (fun o => o.1.ip)).Nodup →
        (changedLines [] obs).length = obs.length) := by
  constructor
  · intro m ip s h
    simp [statusTrackerUpdate, h]
  · intro obs hnodup
    exact changedLines_length_of_fresh obs [] hnodup (fun o _ => rfl)

/-- Witness for C4 at a concrete input: an empty map, then a first
cycle over two distinct addresses. -/
theorem statusTracker_first_update_changed_witness :
    (statusTrackerUpdate [] "10.0.0.1" "online").changed = true ∧
      (changedLines []
        [(⟨"a", "10.0.0.1"⟩, true), (⟨"b", "10.0.0.2"⟩, false)]).length = 2 :=
  ⟨statusTracker_first_update_changed.1 [] "10.0.0.1" "online" rfl,
    statusTracker_first_update_changed.2
      [(⟨"a", "10.0.0.1"⟩, true), (⟨"b", "10.0.0.2"⟩, false)] (by decide)⟩

/-- Claim C5: after a Status Tracker update the entry for the updated
address equals the newly observed state (also when nothing changed,
since then the stored state already equals it); other entries are
untouched; key-distinctness is preserved (at most one entry per
address); and no entry is ever deleted (every previously present key is
still present). -/
theorem statusRecord_commit_invariant (m : StatusMap) (ip s : String) :
    (statusTrackerUpdate m ip s).statuses.find ip = some s ∧
      (∀ k, k ≠ ip → (statusTrackerUpdate m ip s).statuses.find k = m.find k) ∧
      (m.nodupKeys → (statusTrackerUpdate m ip s).statuses.nodupKeys) ∧
      (∀ k v, m.find k = some v →
        ((statusTrackerUpdate m ip s).statuses.find k).isSome = true) := by
  refine ⟨statusTrackerUpdate_find_self m ip s,
    fun k hk => statusTrackerUpdate_find_ne m ip s k hk,
    statusTrackerUpdate_nodupKeys m ip s, ?_⟩
  intro k v hkv
  by_cases hk : k = ip
  · subst hk
    simp [statusTrackerUpdate_find_self m k s]
  · rw [statusTrackerUpdate_find_ne m ip s k hk, hkv]
    rfl

/-- Witness for C5 at a concrete input: a two-entry map with one
address updated. -/
theorem statusRecord_commit_invariant_witness :
    (statusTrackerUpdate [("10.0.0.1", "online"), ("10.0.0.2", "offline")]
        "10.0.0.1" "offline").statuses.find "10.0.0.1" = some "offline" ∧
      (statusTrackerUpdate [("10.0.0.1", "online"), ("10.0.0.2", "offline")]
        "10.0.0.1" "offline").statuses.find "10.0.0.2" = some "offline" ∧
      (statusTrackerUpdate [("10.0.0.1", "online"), ("10.0.0.2", "offline")]
        "10.0.0.1" "offline").statuses.nodupKeys ∧
      ((statusTrackerUpdate [("10.0.0.1", "online"), ("10.0.0.2", "offline")]
        "10.0.0.1" "offline").statuses.find "10.0.0.2").isSome = true := by
  have h := statusRecord_commit_invariant
    [("10.0.0.1", "online"), ("10.0.0.2", "offline")] "10.0.0.1" "offline"
  refine ⟨h.1, ?_, h.2.2.1 (by decide), h.2.2.2 "10.0.0.2" "offline" (by decide)⟩
  rw [h.2.1 "10.0.0.2" (by decide)]
  decide

/-- Claim C6: the prober issues 3 attempts (pinger.Count = 3, each with
a 5-second timeout), and reports Online (true) iff the pinger was
constructed, the run succeeded, and at least one reply was received;
hence any inability to probe — pinger construction failure or run
(permission, resolution, transport) failure — yields Offline (false)
rather than a fatal error. -/
theorem icmpPing_spec :
    pingerCount = 3 ∧ pingerTimeoutSeconds = 5 ∧
      ∀ env : PingEnv, icmpPing env = true ↔
        (env.newPingerErr = none ∧ env.runErr = none ∧ 0 < env.packetsRecv) := by
  refine ⟨rfl, rfl, fun env => ?_⟩
  obtain ⟨np, re, pr⟩ := env
  cases np <;> cases re <;> simp [icmpPing]

/-- Claim C8: the notifier succeeds iff serialization, the POST, and
the response status (200) all succeed — equivalently, it returns an
error iff one of them fails — and the outcome never depends on the
message text, so an empty text is accepted exactly like any other. -/
theorem sendTelegram_error_iff :
    ∀ (env : SendEnv) (botToken chatID message : String),
      ((sendTelegramMessage env botToken chatID message = Except.ok ()) ↔
        (env.marshalErr = none ∧ env.postErr = none ∧ env.statusCode = 200)) ∧
      ((sendTelegramMessage env botToken chatID message = Except.ok ()) ↔
        (sendTelegramMessage env botToken chatID "" = Except.ok ())) := by
  intro env bt cid msg
  obtain ⟨me, pe, sc⟩ := env
  cases me <;> cases pe <;> by_cases hsc : sc = 200 <;>
    simp [sendTelegramMessage, hsc]

/-- Claim C7: in a cycle where at least one target's update reported a
change, exactly one notification message is sent, and its text is the
concatenation, in the cycle's iteration (source) order, of the change
lines of exactly the changed targets (`changedLines` collects one
`changeLine` per changed observation, in order). -/
theorem cycle_sends_one_message_on_change (env : SendEnv) (botToken chatID : String)
    (m : StatusMap) (obs : List (Device × Bool))
    (h : changedLines m obs ≠ []) :
    (runCycle env botToken chatID m obs).sentMessages
        = [concatLines (changedLines m obs)] ∧
      (runCycle env botToken chatID m obs).sentMessages.length = 1 := by
  have hne : (changedLines m obs).isEmpty = false := by
    simpa [List.isEmpty_iff] using h
  rw [runCycle_eq]
  simp [hne]

/-- Witness for C7 at a concrete input: one fresh target, hence one
changed target. -/
theorem cycle_sends_one_message_on_change_witness :
    (runCycle ⟨none, none, 200⟩ "t" "c" []
        [(⟨"dev", "10.0.0.1"⟩, true)]).sentMessages
        = [concatLines (changedLines [] [(⟨"dev", "10.0.0.1"⟩, true)])] ∧
      (runCycle ⟨none, none, 200⟩ "t" "c" []
        [(⟨"dev", "10.0.0.1"⟩, true)]).sentMessages.length = 1 :=
  cycle_sends_one_message_on_change ⟨none, none, 200⟩ "t" "c" []
    [(⟨"dev", "10.0.0.1"⟩, true)] (by decide)

/-- Claim C1 counterexample: with an empty configuration (zero targets,
hence zero changed targets) the send condition of line 130,
messageChanged or len(statuses) equal to zero, is true because the
statuses map is empty, so the cycle DOES hand a (empty) message to the
notifier — contradicting the claim that every cycle of an empty-config
run sends no notification. -/
theorem empty_config_cycle_sends :
    (runCycle ⟨none, none, 200⟩ "token" "chat" [] []).sentMessages = [""] := rfl

/-- Claim C1 (amended): a cycle in which no target's update reported
changed=true sends no notification provided the statuses map is
nonempty (which holds from the first cycle on whenever at least one
target is configured); with an empty configuration the statuses map
stays empty forever, and every such cycle sends one notification
carrying the empty message. -/
theorem no_change_sends_nothing :
    (∀ (env : SendEnv) (botToken chatID : String) (m : StatusMap)
        (obs : List (Device × Bool)),
        changedLines m obs = [] → trackAll m obs ≠ [] →
        (runCycle env botToken chatID m obs).sentMessages = []) ∧
      (∀ (env : SendEnv) (botToken chatID : String),
        (runCycle env botToken chatID [] []).sentMessages = [""] ∧
          (runCycle env botToken chatID [] []).statuses = []) := by
  constructor
  · intro env bt cid m obs h hne
    rw [runCycle_eq]
    have h1 : (changedLines m obs).isEmpty = true := by simp [h]
    have h2 : ((trackAll m obs).length == 0) = false := by
      rw [beq_eq_false_iff_ne]
      simpa [List.length_eq_zero] using hne
    simp [h1, h2]
  · intro env bt cid
    exact ⟨rfl, rfl⟩

/-- Witness for the amended C1 at a concrete input: one target whose
observed state equals its stored state. -/
theorem no_change_sends_nothing_witness :
    (runCycle ⟨none, none, 200⟩ "t" "c" [("10.0.0.1", "online")]
        [(⟨"dev", "10.0.0.1"⟩, true)]).sentMessages = [] :=
  no_change_sends_nothing.1 ⟨none, none, 200⟩ "t" "c" [("10.0.0.1", "online")]
    [(⟨"dev", "10.0.0.1"⟩, true)] (by decide) (by decide)

/-- Claim C9: a cycle's committed tracker state is independent of the
delivery outcome — any two send environments yield the same statuses
map, namely the fold of the tracker updates — and the loop always
proceeds: a run over any list of cycle environments produces exactly
one result per cycle, whatever each cycle's send outcome was (the
embedded cycle is a total function, so a failed delivery cannot abort
it; the error is only recorded in the cycle's log field). -/
theorem delivery_failure_is_nonfatal :
    (∀ (e1 e2 : SendEnv) (botToken chatID : String) (m : StatusMap)
        (obs : List (Device × Bool)),
        (runCycle e1 botToken chatID m obs).statuses
          = (runCycle e2 botToken chatID m obs).statuses) ∧
      (∀ (env : SendEnv) (botToken chatID : String) (m : StatusMap)
        (obs : List (Device × Bool)),
        (runCycle env botToken chatID m obs).statuses = trackAll m obs) ∧
      (∀ (botToken chatID : String) (m : StatusMap)
        (cycles : List (SendEnv × List (Device × Bool))),
        ((runCycles botToken chatID m cycles).2).length = cycles.length) := by
  have hst : ∀ (env : SendEnv) (bt cid : String) (m : StatusMap)
      (obs : List (Device × Bool)),
      (runCycle env bt cid m obs).statuses = trackAll m obs := by
    intro env bt cid m obs
    rw [runCycle_eq]
    split <;> rfl
  refine ⟨fun e1 e2 bt cid m obs => by rw [hst, hst], hst, ?_⟩
  intro bt cid m cycles
  induction cycles generalizing m with
  | nil => rfl
  | cons hd tl ih =>
      obtain ⟨env, obs⟩ := hd
      simp [runCycles, ih]

/-- Claim C10: status tracking is keyed by address only. If two
configured targets share an address and observe the same state in a
cycle, the later one is a no-op: after the earlier target's update the
shared entry already holds that state (third conjunct), so the later
target contributes no change line and no map update — the cycle's
change lines and final map are as if the later duplicate were absent,
in particular also when the shared state is a transition from the
stored state (then only the earlier target produces the line). -/
theorem duplicate_address_shares_entry (m : StatusMap) (d1 d2 : Device) (b : Bool)
    (rest : List (Device × Bool)) (h : d1.ip = d2.ip) :
    changedLines m ((d1, b) :: (d2, b) :: rest) = changedLines m ((d1, b) :: rest) ∧
      trackAll m ((d1, b) :: (d2, b) :: rest) = trackAll m ((d1, b) :: rest) ∧
      (statusTrackerUpdate m d1.ip (statusOf b)).statuses.find d2.ip
        = some (statusOf b) := by
  have hfind : (statusTrackerUpdate m d1.ip (statusOf b)).statuses.find d2.ip
      = some (statusOf b) := by
    rw [← h]
    exact statusTrackerUpdate_find_self m d1.ip (statusOf b)
  have hupd : statusTrackerUpdate (statusTrackerUpdate m d1.ip (statusOf b)).statuses
      d2.ip (statusOf b)
      = ⟨false, (statusTrackerUpdate m d1.ip (statusOf b)).statuses⟩ :=
    statusTrackerUpdate_of_find_eq _ _ _ hfind
  refine ⟨?_, ?_, hfind⟩
  · simp [changedLines, hupd]
  · simp [trackAll, hupd]

/-- Witness for C10 at a concrete input: two targets sharing one
address, both observing offline while the stored state is online — the
earlier target yields the only change line. -/
theorem duplicate_address_shares_entry_witness :
    changedLines [("10.0.0.1", "online")]
        [(⟨"a", "10.0.0.1"⟩, false), (⟨"b", "10.0.0.1"⟩, false)]
      = changedLines [("10.0.0.1", "online")] [(⟨"a", "10.0.0.1"⟩, false)] ∧
      trackAll [("10.0.0.1", "online")]
          [(⟨"a", "10.0.0.1"⟩, false), (⟨"b", "10.0.0.1"⟩, false)]
        = trackAll [("10.0.0.1", "online")] [(⟨"a", "10.0.0.1"⟩, false)] ∧
      (statusTrackerUpdate [("10.0.0.1", "online")] "10.0.0.1"
          (statusOf false)).statuses.find "10.0.0.1" = some (statusOf false) :=
  duplicate_address_shares_entry [("10.0.0.1", "online")] ⟨"a", "10.0.0.1"⟩
    ⟨"b", "10.0.0.1"⟩ false [] rfl

/-- Claim C2 counterexample: a failing godotenv.Load makes main print a
diagnostic and execute a plain return, and returning from main makes a
Go process exit with status 0 — not the non-zero exit code the claim
requires for startup failures. -/
theorem startup_failure_exits_zero :
    mainGo ⟨some "open .env: no such file or directory", "", "",
        Except.error "unused"⟩
      = MainOutcome.exitWith 0
          (some "Error loading .env file: open .env: no such file or directory") :=
  rfl

/-- Claim C2 (amended): on any startup failure (unreadable environment
file, missing bot token or chat identifier, failing config read) the
process emits a diagnostic message and exits — but with exit code 0,
since every failure path is a plain return from main; so every exit has
code 0, and the success path enters the monitor loop and never
returns. -/
theorem startup_exit_behavior :
    (∀ (env : StartupEnv) (c : Nat) (d : Option String),
        mainGo env = MainOutcome.exitWith c d → c = 0 ∧ d.isSome = true) ∧
      (∀ (env : StartupEnv) (cfg : Config),
        env.dotenvErr = none → env.botToken ≠ "" → env.chatID ≠ "" →
        env.configResult = Except.ok cfg →
        mainGo env = MainOutcome.runForever cfg.devices env.botToken env.chatID) := by
  constructor
  · intro env c d h
    unfold mainGo at h
    split at h
    · injection h with h1 h2
      exact ⟨h1.symm, by rw [← h2]; rfl⟩
    · split at h
      · injection h with h1 h2
        exact ⟨h1.symm, by rw [← h2]; rfl⟩
      · split at h
        · injection h with h1 h2
          exact ⟨h1.symm, by rw [← h2]; rfl⟩
        · exact MainOutcome.noConfusion h
  · intro env cfg hde hbt hcid hcfg
    unfold mainGo
    rw [hde, hcfg]
    simp [hbt, hcid]

/-- Witness for the amended C2 at concrete inputs: a failing dotenv
load exits with code 0 and a diagnostic; a fully successful startup
enters the monitor loop. -/
theorem startup_exit_behavior_witness :
    (0 = 0 ∧
        (some "Error loading .env file: boom" : Option String).isSome = true) ∧
      mainGo ⟨none, "tok", "chat", Except.ok ⟨[⟨"dev", "10.0.0.1"⟩]⟩⟩
        = MainOutcome.runForever [⟨"dev", "10.0.0.1"⟩] "tok" "chat" :=
  ⟨startup_exit_behavior.1 ⟨some "boom", "", "", Except.error "unused"⟩ 0
      (some "Error loading .env file: boom") rfl,
    startup_exit_behavior.2 ⟨none, "tok", "chat", Except.ok ⟨[⟨"dev", "10.0.0.1"⟩]⟩⟩
      ⟨[⟨"dev", "10.0.0.1"⟩]⟩ rfl (by decide) (by decide) rfl⟩

end PingMonitor
